import Mathlib

/-!
Verification of the ownership-scoped CRUD model of the ecomsy store
dashboard, centred on the sizes API route (`POST` and `GET` handlers),
the Prisma data model (`Store`, `Billboard`, `Category`, `Size`) and the
client-side form validation rules for sizes.

The embedding follows the source: request bodies are parsed JSON objects
whose fields may be absent (`Option String`), JavaScript falsiness of a
string field (`!x`) is absence or the empty string, the database is a
record of row lists, Prisma `findFirst` is `List.find?`, `findMany` is
`List.filter`, and `create` appends a freshly identified row stamped
with the current time.
-/

namespace Ecomsy

/-- A `Store` row of the Prisma schema: id, name, owning userId, timestamps. -/
structure Store where
  id : String
  name : String
  userId : String
  createdAt : Nat
  updatedAt : Nat
deriving DecidableEq

/-- A `Billboard` row of the Prisma schema. -/
structure Billboard where
  id : String
  storeId : String
  label : String
  imageUrl : String
  createdAt : Nat
  updatedAt : Nat
deriving DecidableEq

/-- A `Category` row of the Prisma schema; `billboardId` is its required
reference to a `Billboard`. -/
structure Category where
  id : String
  storeId : String
  billboardId : String
  name : String
  createdAt : Nat
  updatedAt : Nat
deriving DecidableEq

/-- A `Size` row of the Prisma schema. -/
structure Size where
  id : String
  storeId : String
  name : String
  value : String
  createdAt : Nat
  updatedAt : Nat
deriving DecidableEq

/-- The database state: one list of rows per table. -/
structure DB where
  stores : List Store
  billboards : List Billboard
  categories : List Category
  sizes : List Size
deriving DecidableEq

/-- The parsed JSON body of a sizes request. The handler destructures only
`name` and `value`; the remaining fields model other properties a client
may send in the body, which the handler never reads. -/
structure Body where
  name : Option String
  value : Option String
  storeId : Option String
  id : Option String
  createdAt : Option String
  updatedAt : Option String
  extra : List (String × String)
deriving DecidableEq

/-- JavaScript falsiness of an optional string field: absent or empty. -/
def isBlank : Option String → Bool
  | none => true
  | some s => s == ""

/-- The response of the sizes `POST` handler. -/
inductive SizeResponse where
  | unauthenticated
  | badRequest (msg : String)
  | forbidden
  | ok (size : Size)
deriving DecidableEq

/-- HTTP status code of a sizes `POST` response, as in the source. -/
def SizeResponse.status : SizeResponse → Nat
  | .unauthenticated => 401
  | .badRequest _ => 400
  | .forbidden => 403
  | .ok _ => 200

/-- `prismadb.store.findFirst({ where: { id: storeId, userId } })`:
the first `Store` row matching both the id and the owning user. -/
def findStoreByUser (db : DB) (storeId userId : String) : Option Store :=
  db.stores.find? fun s => s.id == storeId && s.userId == userId

/-- The row `prismadb.size.create` inserts: generated id, `storeId` from
the URL parameter, `name` and `value` from the body, both timestamps set
to the current time. -/
def mkSize (newId storeId name value : String) (now : Nat) : Size :=
  { id := newId, storeId := storeId, name := name, value := value,
    createdAt := now, updatedAt := now }

/-- The sizes `POST` handler (`src/unnamed/part_001`): checks `!userId`
(401), `!name` (400), `!value` (400), `!params.storeId` (400), then the
ownership lookup (403 on miss), then creates and returns the row.
`newId` is the uuid Prisma generates and `now` the creation instant. -/
def sizesPOST (db : DB) (userId : Option String) (body : Body)
    (storeId newId : String) (now : Nat) : SizeResponse × DB :=
  if isBlank userId then
    (.unauthenticated, db)
  else if isBlank body.name then
    (.badRequest "name is required!", db)
  else if isBlank body.value then
    (.badRequest "value is required!", db)
  else if storeId == "" then
    (.badRequest "storeId is required!", db)
  else
    match findStoreByUser db storeId (userId.getD "") with
    | none => (.forbidden, db)
    | some _ =>
        let size := mkSize newId storeId (body.name.getD "") (body.value.getD "") now
        (.ok size, { db with sizes := db.sizes ++ [size] })

/-- The response of the sizes `GET` handler. -/
inductive SizesListResponse where
  | badRequest (msg : String)
  | ok (sizes : List Size)
deriving DecidableEq

/-- The sizes `GET` handler (`src/unnamed/part_001`): the incoming
request (hence any caller identity it carries) is bound to `_req` and
never read; `!params.storeId` gives 400, otherwise `findMany` returns
the rows with matching `storeId`. -/
def sizesGET (db : DB) (_callerId : Option String) (storeId : String) :
    SizesListResponse :=
  if storeId == "" then
    .badRequest "storeId is required!"
  else
    .ok (db.sizes.filter fun s => s.storeId == storeId)

/-- Character class of the size form regex
`[a-zA-Z0-9áéíóúâêîôûãõñç ]` (size-form.tsx). -/
def isAllowedChar (c : Char) : Bool :=
  (('a' ≤ c && c ≤ 'z') || ('A' ≤ c && c ≤ 'Z') || ('0' ≤ c && c ≤ '9')
    || c ∈ ['á', 'é', 'í', 'ó', 'ú', 'â', 'ê', 'î', 'ô', 'û', 'ã', 'õ', 'ñ', 'ç', ' '])

/-- The zod rule for the `name` field of the size form (size-form.tsx):
`min(3)`, `max(30)`, the alphabet regex, and `trim() === value`. -/
def sizeNameValid (s : String) : Bool :=
  3 ≤ s.length && s.length ≤ 30 && s.toList.all isAllowedChar && s.trim == s

/-- The zod rule for the `value` field of the size form (size-form.tsx):
`min(1)`, `max(5)`, the alphabet regex, and `trim() === value`. -/
def sizeValueValid (s : String) : Bool :=
  1 ≤ s.length && s.length ≤ 5 && s.toList.all isAllowedChar && s.trim == s

/-- The response of the billboard `DELETE` handler. -/
inductive BillboardDeleteResponse where
  | forbidden
  | conflict
  | notFound
  | ok (billboard : Billboard)
deriving DecidableEq

/-- Modelled from the spec: the billboard `DELETE` route handler is not
under src/ (only its client caller `BillboardForm.onDelete` and the schema
are). Spec 4.2: "Delete(userId, storeId, entityId): ownership check, then
attempts delete; if the entity is still referenced by a dependent
(Billboard referenced by Category ...), the underlying store operation
fails and this is surfaced as Conflict"; deletion is physical and removes
the row. -/
def billboardDELETE (db : DB) (userId storeId billboardId : String) :
    BillboardDeleteResponse × DB :=
  if (findStoreByUser db storeId userId).isNone then
    (.forbidden, db)
  else if db.categories.any (fun c => c.billboardId == billboardId) then
    (.conflict, db)
  else
    match db.billboards.find? (fun b => b.id == billboardId) with
    | none => (.notFound, db)
    | some b =>
        (.ok b,
         { db with billboards := db.billboards.filter fun x => !(x.id == billboardId) })

/-- Modelled from the spec: the single-size `GET` route handler
(`sizes/[sizeId]`) is not under src/. Spec 4.2: "Get(storeId, entityId):
returns single row or fails NotFound". -/
def sizeGETById (db : DB) (sizeId : String) : Option Size :=
  db.sizes.find? fun s => s.id == sizeId

/-! ### Helper lemmas: one per branch of the sizes `POST` handler. -/

theorem sizesPOST_eq_unauth (db : DB) (userId : Option String) (body : Body)
    (storeId newId : String) (now : Nat) (h : isBlank userId = true) :
    sizesPOST db userId body storeId newId now = (.unauthenticated, db) := by
  simp [sizesPOST, h]

theorem sizesPOST_eq_badName (db : DB) (userId : Option String) (body : Body)
    (storeId newId : String) (now : Nat)
    (h1 : isBlank userId = false) (h2 : isBlank body.name = true) :
    sizesPOST db userId body storeId newId now =
      (.badRequest "name is required!", db) := by
  simp [sizesPOST, h1, h2]

theorem sizesPOST_eq_badValue (db : DB) (userId : Option String) (body : Body)
    (storeId newId : String) (now : Nat)
    (h1 : isBlank userId = false) (h2 : isBlank body.name = false)
    (h3 : isBlank body.value = true) :
    sizesPOST db userId body storeId newId now =
      (.badRequest "value is required!", db) := by
  simp [sizesPOST, h1, h2, h3]

theorem sizesPOST_eq_badStoreId (db : DB) (userId : Option String) (body : Body)
    (newId : String) (now : Nat)
    (h1 : isBlank userId = false) (h2 : isBlank body.name = false)
    (h3 : isBlank body.value = false) :
    sizesPOST db userId body "" newId now =
      (.badRequest "storeId is required!", db) := by
  simp [sizesPOST, h1, h2, h3]

theorem sizesPOST_eq_forbidden (db : DB) (userId : Option String) (body : Body)
    (storeId newId : String) (now : Nat)
    (h1 : isBlank userId = false) (h2 : isBlank body.name = false)
    (h3 : isBlank body.value = false) (h4 : storeId ≠ "")
    (h5 : findStoreByUser db storeId (userId.getD "") = none) :
    sizesPOST db userId body storeId newId now = (.forbidden, db) := by
  simp [sizesPOST, h1, h2, h3, h4, h5]

theorem sizesPOST_eq_ok (db : DB) (userId : Option String) (body : Body)
    (storeId newId : String) (now : Nat) (st : Store)
    (h1 : isBlank userId = false) (h2 : isBlank body.name = false)
    (h3 : isBlank body.value = false) (h4 : storeId ≠ "")
    (h5 : findStoreByUser db storeId (userId.getD "") = some st) :
    sizesPOST db userId body storeId newId now =
      (.ok (mkSize newId storeId (body.name.getD "") (body.value.getD "") now),
       { db with sizes :=
          db.sizes ++ [mkSize newId storeId (body.name.getD "") (body.value.getD "") now] }) := by
  simp [sizesPOST, h1, h2, h3, h4, h5]

/-- `findStoreByUser` misses exactly when no row matches both the id and
the user. -/
theorem findStoreByUser_eq_none_iff (db : DB) (storeId userId : String) :
    findStoreByUser db storeId userId = none ↔
      ∀ st ∈ db.stores, ¬(st.id = storeId ∧ st.userId = userId) := by
  simp [findStoreByUser, List.find?_eq_none]

/-- A hit of `findStoreByUser` is a row of the table owned by the user. -/
theorem findStoreByUser_eq_some (db : DB) (storeId userId : String) (st : Store)
    (h : findStoreByUser db storeId userId = some st) :
    st ∈ db.stores ∧ st.id = storeId ∧ st.userId = userId := by
  refine ⟨List.mem_of_find?_eq_some h, ?_⟩
  have hp := List.find?_some h
  simpa using hp

/-- A present non-empty field is not blank. -/
theorem isBlank_some_eq_false {s : String} (h : s ≠ "") :
    isBlank (some s) = false := by
  simp [isBlank, h]

/-- Searching an appended list skips a prefix on which the predicate
fails everywhere. -/
theorem find?_append_of_none {α : Type} (p : α → Bool) (l1 l2 : List α)
    (h : ∀ x ∈ l1, p x = false) : (l1 ++ l2).find? p = l2.find? p := by
  induction l1 with
  | nil => rfl
  | cons a l ih =>
      have ha : p a = false := h a (List.mem_cons_self a l)
      rw [List.cons_append, List.find?_cons, ha]
      exact ih fun x hx => h x (List.mem_cons_of_mem a hx)

/-- Inversion of the success branch of the sizes `POST` handler: a 200
response carries exactly the row built from the generated id, the URL
storeId, the body fields and the current instant. -/
theorem sizesPOST_ok_inv (db : DB) (userId : Option String) (body : Body)
    (storeId newId : String) (now : Nat) (sz : Size) (db2 : DB)
    (h : sizesPOST db userId body storeId newId now = (.ok sz, db2)) :
    sz = mkSize newId storeId (body.name.getD "") (body.value.getD "") now ∧
    db2 = { db with sizes := db.sizes ++ [sz] } := by
  by_cases h1 : isBlank userId = true
  · rw [sizesPOST_eq_unauth db userId body storeId newId now h1] at h
    simp at h
  replace h1 : isBlank userId = false := by simpa using h1
  by_cases h2 : isBlank body.name = true
  · rw [sizesPOST_eq_badName db userId body storeId newId now h1 h2] at h
    simp at h
  replace h2 : isBlank body.name = false := by simpa using h2
  by_cases h3 : isBlank body.value = true
  · rw [sizesPOST_eq_badValue db userId body storeId newId now h1 h2 h3] at h
    simp at h
  replace h3 : isBlank body.value = false := by simpa using h3
  by_cases h4 : storeId = ""
  · subst h4
    rw [sizesPOST_eq_badStoreId db userId body newId now h1 h2 h3] at h
    simp at h
  cases h5 : findStoreByUser db storeId (userId.getD "") with
  | none =>
      rw [sizesPOST_eq_forbidden db userId body storeId newId now h1 h2 h3 h4 h5] at h
      simp at h
  | some st =>
      rw [sizesPOST_eq_ok db userId body storeId newId now st h1 h2 h3 h4 h5] at h
      rw [Prod.ext_iff] at h
      obtain ⟨hr, hd⟩ := h
      simp only [SizeResponse.ok.injEq] at hr
      subst hr
      exact ⟨rfl, hd.symm⟩

/-! ### Concrete instances used by witnesses and counterexamples. -/

def storeEx : Store :=
  { id := "s1", name := "Loja", userId := "u1", createdAt := 0, updatedAt := 0 }

def storeOther : Store :=
  { id := "s1", name := "Loja2", userId := "u2", createdAt := 0, updatedAt := 0 }

def dbEx : DB := { stores := [storeEx], billboards := [], categories := [], sizes := [] }

def dbEmpty : DB := { stores := [], billboards := [], categories := [], sizes := [] }

def dbOther : DB :=
  { stores := [storeOther], billboards := [], categories := [], sizes := [] }

def bodyEx : Body :=
  { name := some "Pequeno", value := some "S", storeId := none, id := none,
    createdAt := none, updatedAt := none, extra := [] }

def bodyNoName : Body := { bodyEx with name := none }

def bodyShortName : Body := { bodyEx with name := some "ab" }

def bodyExtra : Body :=
  { bodyEx with storeId := some "evil", id := some "x9", extra := [("admin", "true")] }

def billEx : Billboard :=
  { id := "b1", storeId := "s1", label := "Verao", imageUrl := "img",
    createdAt := 0, updatedAt := 0 }

def catEx : Category :=
  { id := "c1", storeId := "s1", billboardId := "b1", name := "Camisolas",
    createdAt := 0, updatedAt := 0 }

def dbBill : DB :=
  { stores := [storeEx], billboards := [billEx], categories := [catEx], sizes := [] }

/-! ### Claim theorems. -/

/-- C5: the sizes Create handler performs its checks in the fixed order
authentication (401), name presence (400), value presence (400), storeId
presence (400), store ownership (403); the first failing check alone
determines the response, and once all pass, a row with the generated
identifier and current timestamps is persisted and returned as the body. -/
theorem sizesPOST_check_order (db : DB) (userId : Option String) (body : Body)
    (storeId newId : String) (now : Nat) :
    (isBlank userId = true →
      sizesPOST db userId body storeId newId now = (.unauthenticated, db)) ∧
    (isBlank userId = false → isBlank body.name = true →
      sizesPOST db userId body storeId newId now = (.badRequest "name is required!", db)) ∧
    (isBlank userId = false → isBlank body.name = false → isBlank body.value = true →
      sizesPOST db userId body storeId newId now = (.badRequest "value is required!", db)) ∧
    (isBlank userId = false → isBlank body.name = false → isBlank body.value = false →
      storeId = "" →
      sizesPOST db userId body storeId newId now = (.badRequest "storeId is required!", db)) ∧
    (isBlank userId = false → isBlank body.name = false → isBlank body.value = false →
      storeId ≠ "" → findStoreByUser db storeId (userId.getD "") = none →
      sizesPOST db userId body storeId newId now = (.forbidden, db)) ∧
    (∀ st : Store, isBlank userId = false → isBlank body.name = false →
      isBlank body.value = false → storeId ≠ "" →
      findStoreByUser db storeId (userId.getD "") = some st →
      sizesPOST db userId body storeId newId now =
        (.ok (mkSize newId storeId (body.name.getD "") (body.value.getD "") now),
         { db with sizes :=
            db.sizes ++ [mkSize newId storeId (body.name.getD "") (body.value.getD "") now] })) := by
  refine ⟨fun h1 => sizesPOST_eq_unauth db userId body storeId newId now h1,
          fun h1 h2 => sizesPOST_eq_badName db userId body storeId newId now h1 h2,
          fun h1 h2 h3 => sizesPOST_eq_badValue db userId body storeId newId now h1 h2 h3,
          fun h1 h2 h3 h4 => ?_,
          fun h1 h2 h3 h4 h5 => sizesPOST_eq_forbidden db userId body storeId newId now h1 h2 h3 h4 h5,
          fun st h1 h2 h3 h4 h5 => sizesPOST_eq_ok db userId body storeId newId now st h1 h2 h3 h4 h5⟩
  subst h4
  exact sizesPOST_eq_badStoreId db userId body newId now h1 h2 h3

/-- Witness for C5: a fully valid concrete request takes the success
branch and persists the created row. -/
theorem sizesPOST_check_order_witness :
    sizesPOST dbEx (some "u1") bodyEx "s1" "sz1" 7 =
      (.ok (mkSize "sz1" "s1" "Pequeno" "S" 7),
       { dbEx with sizes := [mkSize "sz1" "s1" "Pequeno" "S" 7] }) := by
  have h := (sizesPOST_check_order dbEx (some "u1") bodyEx "s1" "sz1" 7).2.2.2.2.2
    storeEx (by decide) (by decide) (by decide) (by decide) (by decide)
  simpa [dbEx, bodyEx] using h

/-- C1: for an authenticated sizes Create with non-empty name, value and
storeId, when no Store row matches both id = storeId and the user —
whether the store is absent (`db1`) or present but owned by another user
(`db2`) — the handler answers 403 Forbidden with unchanged state, and the
two cases produce identical responses, leaking no existence information. -/
theorem sizesPOST_forbidden_uniform
    (db1 db2 : DB) (u : String) (b1 b2 : Body) (storeId newId1 newId2 : String)
    (now1 now2 : Nat)
    (hu : u ≠ "")
    (hn1 : isBlank b1.name = false) (hv1 : isBlank b1.value = false)
    (hn2 : isBlank b2.name = false) (hv2 : isBlank b2.value = false)
    (hs : storeId ≠ "")
    (habsent : ∀ st ∈ db1.stores, st.id ≠ storeId)
    (_hother : ∃ st ∈ db2.stores, st.id = storeId)
    (hnotowned : ∀ st ∈ db2.stores, st.id = storeId → st.userId ≠ u) :
    sizesPOST db1 (some u) b1 storeId newId1 now1 = (.forbidden, db1) ∧
    sizesPOST db2 (some u) b2 storeId newId2 now2 = (.forbidden, db2) ∧
    (sizesPOST db1 (some u) b1 storeId newId1 now1).1 =
      (sizesPOST db2 (some u) b2 storeId newId2 now2).1 := by
  have hb : isBlank (some u) = false := isBlank_some_eq_false hu
  have hf1 : findStoreByUser db1 storeId ((some u).getD "") = none := by
    rw [findStoreByUser_eq_none_iff]
    intro st hst hc
    exact habsent st hst hc.1
  have hf2 : findStoreByUser db2 storeId ((some u).getD "") = none := by
    rw [findStoreByUser_eq_none_iff]
    intro st hst hc
    exact hnotowned st hst hc.1 hc.2
  have e1 := sizesPOST_eq_forbidden db1 (some u) b1 storeId newId1 now1 hb hn1 hv1 hs hf1
  have e2 := sizesPOST_eq_forbidden db2 (some u) b2 storeId newId2 now2 hb hn2 hv2 hs hf2
  exact ⟨e1, e2, by rw [e1, e2]⟩

/-- Witness for C1: user u1 against an empty database and against a
database whose store s1 belongs to u2 receives the same 403 response. -/
theorem sizesPOST_forbidden_uniform_witness :
    sizesPOST dbEmpty (some "u1") bodyEx "s1" "sz1" 7 = (.forbidden, dbEmpty) ∧
    sizesPOST dbOther (some "u1") bodyEx "s1" "sz2" 8 = (.forbidden, dbOther) ∧
    (sizesPOST dbEmpty (some "u1") bodyEx "s1" "sz1" 7).1 =
      (sizesPOST dbOther (some "u1") bodyEx "s1" "sz2" 8).1 :=
  sizesPOST_forbidden_uniform dbEmpty dbOther "u1" bodyEx bodyEx "s1" "sz1" "sz2" 7 8
    (by decide) (by decide) (by decide) (by decide) (by decide) (by decide)
    (by intro st hst; simp [dbEmpty] at hst)
    ⟨storeOther, by simp [dbOther], by decide⟩
    (by intro st hst hid; simp [dbOther] at hst; subst hst; decide)

/-- C3 counterexample: a sizes Create request missing the required name
field but carrying no user identity is answered 401 Unauthenticated, not
400 BadRequest — the unconditional 400 of the claim fails on unauthenticated
requests, because the authentication check runs first. -/
theorem sizesPOST_missing_field_cex :
    bodyNoName.name = none ∧
    sizesPOST dbEx none bodyNoName "s1" "sz1" 7 = (.unauthenticated, dbEx) ∧
    (sizesPOST dbEx none bodyNoName "s1" "sz1" 7).1.status = 401 := by
  refine ⟨rfl, ?_, ?_⟩ <;> decide

/-- C3 (amended): for every authenticated sizes Create request missing a
required field, the handler returns 400 with a message naming the first
missing field (name checked before value) and the state is unchanged. -/
theorem sizesPOST_missing_field (db : DB) (userId : Option String) (body : Body)
    (storeId newId : String) (now : Nat) (hauth : isBlank userId = false) :
    (isBlank body.name = true →
      sizesPOST db userId body storeId newId now =
        (.badRequest "name is required!", db)) ∧
    (isBlank body.name = false → isBlank body.value = true →
      sizesPOST db userId body storeId newId now =
        (.badRequest "value is required!", db)) :=
  ⟨fun h2 => sizesPOST_eq_badName db userId body storeId newId now hauth h2,
   fun h2 h3 => sizesPOST_eq_badValue db userId body storeId newId now hauth h2 h3⟩

/-- Witness for the amended C3: an authenticated request without a name is
answered 400 "name is required!" and the database is untouched. -/
theorem sizesPOST_missing_field_witness :
    sizesPOST dbEx (some "u1") bodyNoName "s1" "sz1" 7 =
      (.badRequest "name is required!", dbEx) :=
  (sizesPOST_missing_field dbEx (some "u1") bodyNoName "s1" "sz1" 7 (by decide)).1
    (by decide)

/-- C4 counterexample: an authenticated request whose storeId names a
store owned by another user but whose body misses the name field is
answered 400, not 403 — the required-field checks run before the
ownership check. -/
theorem sizesPOST_unowned_cex :
    storeOther ∈ dbOther.stores ∧ storeOther.id = "s1" ∧ storeOther.userId ≠ "u1" ∧
    sizesPOST dbOther (some "u1") bodyNoName "s1" "sz1" 7 =
      (.badRequest "name is required!", dbOther) ∧
    (sizesPOST dbOther (some "u1") bodyNoName "s1" "sz1" 7).1.status = 400 := by
  refine ⟨by simp [dbOther], by decide, by decide, ?_, ?_⟩ <;> decide

/-- C4 (amended): a sizes Create carrying a valid (non-empty, existing)
storeId not owned by the authenticated user, with both required fields
present, returns 403 Forbidden and persists nothing: the state is
returned unchanged and the creation step is never reached. -/
theorem sizesPOST_unowned_no_persist (db : DB) (u : String) (body : Body)
    (storeId newId : String) (now : Nat)
    (hu : u ≠ "") (hn : isBlank body.name = false) (hv : isBlank body.value = false)
    (hs : storeId ≠ "")
    (_hex : ∃ st ∈ db.stores, st.id = storeId)
    (hnotowned : ∀ st ∈ db.stores, st.id = storeId → st.userId ≠ u) :
    sizesPOST db (some u) body storeId newId now = (.forbidden, db) := by
  have hf : findStoreByUser db storeId ((some u).getD "") = none := by
    rw [findStoreByUser_eq_none_iff]
    intro st hst hc
    exact hnotowned st hst hc.1 hc.2
  exact sizesPOST_eq_forbidden db (some u) body storeId newId now
    (isBlank_some_eq_false hu) hn hv hs hf

/-- Witness for the amended C4: user u1 creating in store s1 of user u2 with a
complete body receives 403 and the database is untouched. -/
theorem sizesPOST_unowned_no_persist_witness :
    sizesPOST dbOther (some "u1") bodyEx "s1" "sz1" 7 = (.forbidden, dbOther) :=
  sizesPOST_unowned_no_persist dbOther "u1" bodyEx "s1" "sz1" 7
    (by decide) (by decide) (by decide) (by decide)
    ⟨storeOther, by simp [dbOther], by decide⟩
    (by intro st hst hid; simp [dbOther] at hst; subst hst; decide)

/-- C6: the sizes GET handler never reads the caller identity — any two
callers get the same answer — and it returns 400 when storeId is empty,
otherwise exactly the rows whose storeId matches: every returned row is a
stored row with that storeId and every such stored row is returned. -/
theorem sizesGET_spec (db : DB) (u1 u2 : Option String) (storeId : String) :
    sizesGET db u1 storeId = sizesGET db u2 storeId ∧
    (storeId = "" → sizesGET db u1 storeId = .badRequest "storeId is required!") ∧
    (storeId ≠ "" →
      sizesGET db u1 storeId = .ok (db.sizes.filter fun s => s.storeId == storeId) ∧
      ∀ s : Size, s ∈ db.sizes.filter (fun s => s.storeId == storeId) ↔
        s ∈ db.sizes ∧ s.storeId = storeId) := by
  refine ⟨rfl, fun h => by simp [sizesGET, h], fun h => ⟨by simp [sizesGET, h], ?_⟩⟩
  intro s
  simp [List.mem_filter]

/-- Witness for C6: concrete calls with two different identities, an
empty storeId, and a populated store. -/
theorem sizesGET_spec_witness :
    sizesGET dbEx (some "u1") "s1" = sizesGET dbEx none "s1" ∧
    sizesGET dbEx (some "u1") "" = .badRequest "storeId is required!" ∧
    sizesGET dbEx (some "u1") "s1" = .ok [] := by
  refine ⟨(sizesGET_spec dbEx (some "u1") none "s1").1,
          ?_, ?_⟩
  · exact (sizesGET_spec dbEx (some "u1") none "").2.1 rfl
  · have h := ((sizesGET_spec dbEx (some "u1") none "s1").2.2 (by decide)).1
    simpa [dbEx] using h

/-- C7: a successful sizes Create followed by a Get of the returned
identifier yields a row whose name, value and storeId equal the inputs of
the Create and whose createdAt is at most its updatedAt. Freshness of the
generated identifier is the uuid-uniqueness assumption of the schema. -/
theorem sizesPOST_get_roundtrip (db : DB) (u n v storeId newId : String)
    (body : Body) (now : Nat) (st : Store)
    (hu : u ≠ "") (hname : body.name = some n) (hn : n ≠ "")
    (hvalue : body.value = some v) (hv : v ≠ "") (hs : storeId ≠ "")
    (hown : findStoreByUser db storeId u = some st)
    (hfresh : ∀ s ∈ db.sizes, s.id ≠ newId) :
    ∃ sz : Size,
      (sizesPOST db (some u) body storeId newId now).1 = .ok sz ∧
      sizeGETById (sizesPOST db (some u) body storeId newId now).2 sz.id = some sz ∧
      sz.name = n ∧ sz.value = v ∧ sz.storeId = storeId ∧
      sz.createdAt ≤ sz.updatedAt := by
  have hok := sizesPOST_eq_ok db (some u) body storeId newId now st
    (isBlank_some_eq_false hu) (by rw [hname]; exact isBlank_some_eq_false hn)
    (by rw [hvalue]; exact isBlank_some_eq_false hv) hs hown
  rw [hname, hvalue] at hok
  simp only [Option.getD_some] at hok
  refine ⟨mkSize newId storeId n v now, by rw [hok], ?_, rfl, rfl, rfl, le_refl now⟩
  rw [hok]
  show sizeGETById { db with sizes := db.sizes ++ [mkSize newId storeId n v now] }
    (mkSize newId storeId n v now).id = some (mkSize newId storeId n v now)
  unfold sizeGETById
  rw [show ({ db with sizes := db.sizes ++ [mkSize newId storeId n v now] } : DB).sizes
        = db.sizes ++ [mkSize newId storeId n v now] from rfl]
  rw [find?_append_of_none]
  · simp [mkSize]
  · intro x hx
    simpa [mkSize] using hfresh x hx

/-- Witness for C7: the concrete round trip on dbEx. -/
theorem sizesPOST_get_roundtrip_witness :
    ∃ sz : Size,
      (sizesPOST dbEx (some "u1") bodyEx "s1" "sz1" 7).1 = .ok sz ∧
      sizeGETById (sizesPOST dbEx (some "u1") bodyEx "s1" "sz1" 7).2 sz.id = some sz ∧
      sz.name = "Pequeno" ∧ sz.value = "S" ∧ sz.storeId = "s1" ∧
      sz.createdAt ≤ sz.updatedAt :=
  sizesPOST_get_roundtrip dbEx "u1" "Pequeno" "S" "s1" "sz1" bodyEx 7 storeEx
    (by decide) rfl (by decide) rfl (by decide) (by decide) (by decide)
    (by intro s hs; simp [dbEx] at hs)

/-- C8 counterexample: the name "ab" is present but ill-formed under the
form rule set (minimum length 3), yet the handler does not answer 400: it
creates the row, persists it and returns it with status 200. -/
theorem sizesPOST_malformed_cex :
    bodyShortName.name = some "ab" ∧ sizeNameValid "ab" = false ∧
    sizesPOST dbEx (some "u1") bodyShortName "s1" "sz1" 7 =
      (.ok (mkSize "sz1" "s1" "ab" "S" 7),
       { dbEx with sizes := [mkSize "sz1" "s1" "ab" "S" 7] }) ∧
    (sizesPOST dbEx (some "u1") bodyShortName "s1" "sz1" 7).1.status = 200 := by
  exact ⟨rfl, by decide, by decide, by decide⟩

/-- C8 (amended): the sizes handler checks only presence of name and
value; a present but ill-formed field (failing the length, alphabet or
trim rule of the form schema) still passes the handler, which persists and
returns the row — the declarative rule set is enforced client-side only. -/
theorem sizesPOST_accepts_malformed (db : DB) (u storeId newId : String)
    (body : Body) (now : Nat) (st : Store) (n v : String)
    (hu : u ≠ "") (hname : body.name = some n) (hn : n ≠ "")
    (hvalue : body.value = some v) (hv : v ≠ "") (hs : storeId ≠ "")
    (_hill : sizeNameValid n = false ∨ sizeValueValid v = false)
    (hown : findStoreByUser db storeId u = some st) :
    sizesPOST db (some u) body storeId newId now =
      (.ok (mkSize newId storeId n v now),
       { db with sizes := db.sizes ++ [mkSize newId storeId n v now] }) := by
  have hok := sizesPOST_eq_ok db (some u) body storeId newId now st
    (isBlank_some_eq_false hu) (by rw [hname]; exact isBlank_some_eq_false hn)
    (by rw [hvalue]; exact isBlank_some_eq_false hv) hs hown
  rw [hname, hvalue] at hok
  simpa using hok

/-- Witness for the amended C8: the ill-formed name "ab" is accepted and
persisted. -/
theorem sizesPOST_accepts_malformed_witness :
    sizesPOST dbEx (some "u1") bodyShortName "s1" "sz2" 9 =
      (.ok (mkSize "sz2" "s1" "ab" "S" 9),
       { dbEx with sizes := [mkSize "sz2" "s1" "ab" "S" 9] }) := by
  have h := sizesPOST_accepts_malformed dbEx "u1" "s1" "sz2" bodyShortName 9 storeEx
    "ab" "S" (by decide) rfl (by decide) rfl (by decide) (by decide)
    (Or.inl (by decide)) (by decide)
  simpa [dbEx] using h

/-- C9: after any sizes Create, every Size row of the resulting state was
either already present, or carries the URL storeId of the request together
with a Store row that existed at request time, had that id, and was owned
by the requesting user. -/
theorem sizesPOST_ownership_invariant (db : DB) (userId : Option String)
    (body : Body) (storeId newId : String) (now : Nat) :
    ∀ s ∈ (sizesPOST db userId body storeId newId now).2.sizes,
      s ∈ db.sizes ∨
        (s.storeId = storeId ∧
         ∃ st ∈ db.stores, st.id = storeId ∧ userId = some st.userId) := by
  intro s hs
  by_cases h1 : isBlank userId = true
  · rw [sizesPOST_eq_unauth db userId body storeId newId now h1] at hs
    exact Or.inl hs
  replace h1 : isBlank userId = false := by simpa using h1
  by_cases h2 : isBlank body.name = true
  · rw [sizesPOST_eq_badName db userId body storeId newId now h1 h2] at hs
    exact Or.inl hs
  replace h2 : isBlank body.name = false := by simpa using h2
  by_cases h3 : isBlank body.value = true
  · rw [sizesPOST_eq_badValue db userId body storeId newId now h1 h2 h3] at hs
    exact Or.inl hs
  replace h3 : isBlank body.value = false := by simpa using h3
  by_cases h4 : storeId = ""
  · subst h4
    rw [sizesPOST_eq_badStoreId db userId body newId now h1 h2 h3] at hs
    exact Or.inl hs
  cases h5 : findStoreByUser db storeId (userId.getD "") with
  | none =>
      rw [sizesPOST_eq_forbidden db userId body storeId newId now h1 h2 h3 h4 h5] at hs
      exact Or.inl hs
  | some st =>
      rw [sizesPOST_eq_ok db userId body storeId newId now st h1 h2 h3 h4 h5] at hs
      simp only [List.mem_append, List.mem_singleton] at hs
      rcases hs with hs | hs
      · exact Or.inl hs
      · subst hs
        obtain ⟨hmem, hid, huid⟩ := findStoreByUser_eq_some db storeId (userId.getD "") st h5
        refine Or.inr ⟨rfl, st, hmem, hid, ?_⟩
        cases userId with
        | none => simp [isBlank] at h1
        | some x => simp only [Option.getD_some] at huid; rw [huid]

/-- Witness for C9: the row created by a concrete request satisfies the
disjunction of the invariant. -/
theorem sizesPOST_ownership_invariant_witness :
    mkSize "sz1" "s1" "Pequeno" "S" 7 ∈ dbEx.sizes ∨
      ((mkSize "sz1" "s1" "Pequeno" "S" 7).storeId = "s1" ∧
       ∃ st ∈ dbEx.stores, st.id = "s1" ∧ (some "u1" : Option String) = some st.userId) :=
  sizesPOST_ownership_invariant dbEx (some "u1") bodyEx "s1" "sz1" 7
    (mkSize "sz1" "s1" "Pequeno" "S" 7) (by decide)

/-- C10: the sizes Create handler reads only the name and value
properties of the body — two requests differing in any other body
property (storeId, id, createdAt, updatedAt, extras) produce the same
response and state — and the storeId of a created row is always the URL
path parameter, never taken from the body. -/
theorem sizesPOST_body_projection (db : DB) (userId : Option String)
    (b1 b2 : Body) (storeId newId : String) (now : Nat)
    (hn : b1.name = b2.name) (hv : b1.value = b2.value) :
    sizesPOST db userId b1 storeId newId now =
      sizesPOST db userId b2 storeId newId now ∧
    ∀ sz db2, sizesPOST db userId b1 storeId newId now = (.ok sz, db2) →
      sz.storeId = storeId := by
  constructor
  · unfold sizesPOST
    rw [hn, hv]
  · intro sz db2 h
    rw [(sizesPOST_ok_inv db userId b1 storeId newId now sz db2 h).1]
    rfl

/-- Witness for C10: a body smuggling a foreign storeId, an id and extra
properties yields the very same result as the plain body, and the created
storeId of the created row is s1, taken from the URL. -/
theorem sizesPOST_body_projection_witness :
    sizesPOST dbEx (some "u1") bodyEx "s1" "sz1" 7 =
      sizesPOST dbEx (some "u1") bodyExtra "s1" "sz1" 7 ∧
    ∀ sz db2, sizesPOST dbEx (some "u1") bodyEx "s1" "sz1" 7 = (.ok sz, db2) →
      sz.storeId = "s1" :=
  sizesPOST_body_projection dbEx (some "u1") bodyEx bodyExtra "s1" "sz1" 7 rfl rfl

/-- C2: deleting a Billboard while a Category still references it answers
Conflict and leaves the state unchanged; deleting it again after all
referencing Categories are removed succeeds and removes exactly that
billboard row. -/
theorem billboardDELETE_conflict_then_ok (db : DB) (u storeId bid : String)
    (bb : Billboard) (st : Store)
    (hown : findStoreByUser db storeId u = some st)
    (hbb : db.billboards.find? (fun b => b.id == bid) = some bb)
    (href : db.categories.any (fun c => c.billboardId == bid) = true) :
    billboardDELETE db u storeId bid = (.conflict, db) ∧
    billboardDELETE
        { db with categories := db.categories.filter fun c => !(c.billboardId == bid) }
        u storeId bid =
      (.ok bb,
       { db with
          categories := db.categories.filter fun c => !(c.billboardId == bid),
          billboards := db.billboards.filter fun b => !(b.id == bid) }) ∧
    ∀ b2 ∈ (billboardDELETE
        { db with categories := db.categories.filter fun c => !(c.billboardId == bid) }
        u storeId bid).2.billboards, b2.id ≠ bid := by
  have hown2 : findStoreByUser
      { db with categories := db.categories.filter fun c => !(c.billboardId == bid) }
      storeId u = some st := hown
  have hcat : (List.filter (fun c => !(c.billboardId == bid)) db.categories).any
      (fun c => c.billboardId == bid) = false := by
    rw [List.any_eq_false]
    intro c hc
    rw [List.mem_filter] at hc
    simpa using hc.2
  have e1 : billboardDELETE db u storeId bid = (.conflict, db) := by
    simp [billboardDELETE, hown, href]
  have e2 : billboardDELETE
      { db with categories := db.categories.filter fun c => !(c.billboardId == bid) }
      u storeId bid =
      (.ok bb,
       { db with
          categories := db.categories.filter fun c => !(c.billboardId == bid),
          billboards := db.billboards.filter fun b => !(b.id == bid) }) := by
    simp [billboardDELETE, hown2, hcat, hbb]
  refine ⟨e1, e2, ?_⟩
  intro b2 hb2
  rw [e2] at hb2
  simp only [List.mem_filter, Bool.not_eq_eq_eq_not, Bool.not_true, beq_eq_false_iff_ne] at hb2
  exact hb2.2

/-- Witness for C2: in dbBill, category c1 references billboard b1, so
the first delete conflicts; with the referencing category filtered out
the delete succeeds and removes b1. -/
theorem billboardDELETE_conflict_then_ok_witness :
    billboardDELETE dbBill "u1" "s1" "b1" = (.conflict, dbBill) ∧
    billboardDELETE
        { dbBill with categories := dbBill.categories.filter fun c => !(c.billboardId == "b1") }
        "u1" "s1" "b1" =
      (.ok billEx,
       { dbBill with
          categories := dbBill.categories.filter fun c => !(c.billboardId == "b1"),
          billboards := dbBill.billboards.filter fun b => !(b.id == "b1") }) ∧
    ∀ b2 ∈ (billboardDELETE
        { dbBill with categories := dbBill.categories.filter fun c => !(c.billboardId == "b1") }
        "u1" "s1" "b1").2.billboards, b2.id ≠ "b1" :=
  billboardDELETE_conflict_then_ok dbBill "u1" "s1" "b1" billEx storeEx
    (by decide) (by decide) (by decide)

end Ecomsy
